import Mathlib

set_option maxRecDepth 8000

/-!
Verification of the pose-comparison and scoring engine of the Just-Dance
repository (`src/utils/poseComparison.ts` and the scoring section of
`DanceCanvas.tsx`).

Embedding conventions:
* JavaScript numbers are embedded as exact rationals (`ℚ`).
* `Math.sqrt` and the composite `x ↦ Math.acos(x) * (180 / Math.PI)` are
  irrational-valued, so they are taken as parameters (`sqrt`, `acosd`) of the
  definitions that use them; theorems assume only the properties actually
  needed (e.g. `sqrt 0 = 0`).
* A JavaScript member access `arr[i].field` on an out-of-bounds index throws
  (`undefined` has no properties); such accesses are embedded in the `Except`
  monad, `.error ()` standing for the thrown `TypeError`.
* Arguments the TypeScript code tests for null-ness are embedded as `Option`.
-/

/-- One body keypoint: `interface Landmark` of poseComparison.ts. -/
structure Landmark where
  x : ℚ
  y : ℚ
  z : ℚ
  visibility : ℚ
deriving DecidableEq, Repr

/-- `interface ActionMeshCheckpoint` of poseComparison.ts. -/
structure ActionMeshCheckpoint where
  time : ℚ
  landmarks : List Landmark
deriving DecidableEq, Repr

/-- Result of `getScoreFeedback`: a feedback label and the points awarded. -/
structure ScoreFeedback where
  feedback : String
  points : ℕ
deriving DecidableEq, Repr

/-- `getScoreFeedback` of poseComparison.ts: maps a similarity score to a
(feedback, points) tier. -/
def getScoreFeedback (similarity : ℚ) : ScoreFeedback :=
  if 95 ≤ similarity then ⟨"Perfect!", 100⟩
  else if 85 ≤ similarity then ⟨"Great!", 60⟩
  else if 70 ≤ similarity then ⟨"Good!", 30⟩
  else if 50 ≤ similarity then ⟨"Almost!", 10⟩
  else ⟨"Keep trying!", 0⟩

/-- The `for (const checkpoint of checkpoints)` loop of `findNearestCheckpoint`:
carries the current `nearest` checkpoint and its distance `minDiff`, replacing
them only when a strictly smaller distance is found. -/
def nearestLoop (t : ℚ) : ActionMeshCheckpoint → ℚ → List ActionMeshCheckpoint →
    ActionMeshCheckpoint × ℚ
  | nearest, minDiff, [] => (nearest, minDiff)
  | nearest, minDiff, c :: rest =>
      let diff := |c.time - t|
      if diff < minDiff then nearestLoop t c diff rest
      else nearestLoop t nearest minDiff rest

/-- `findNearestCheckpoint` of poseComparison.ts.  The TypeScript signature
types `checkpoints` as a non-null array, so the `!checkpoints` guard collapses
onto the `length === 0` test. -/
def findNearestCheckpoint (checkpoints : List ActionMeshCheckpoint)
    (currentTime : ℚ) : Option ActionMeshCheckpoint :=
  match checkpoints with
  | [] => none
  | c0 :: _ =>
      let r := nearestLoop currentTime c0 (|c0.time - currentTime|) checkpoints
      if r.2 ≤ 3/10 then some r.1 else none

lemma nearestLoop_spec (t : ℚ) :
    ∀ (l : List ActionMeshCheckpoint) (b : ActionMeshCheckpoint) (d : ℚ),
    d = |b.time - t| →
    (nearestLoop t b d l).2 = |(nearestLoop t b d l).1.time - t| ∧
    (((nearestLoop t b d l).1 = b ∧ (nearestLoop t b d l).2 = d ∧
        ∀ c ∈ l, (nearestLoop t b d l).2 ≤ |c.time - t|) ∨
      (∃ l₁ l₂, l = l₁ ++ (nearestLoop t b d l).1 :: l₂ ∧
        (nearestLoop t b d l).2 < d ∧
        (∀ c ∈ l₁, (nearestLoop t b d l).2 < |c.time - t|) ∧
        (∀ c ∈ l₂, (nearestLoop t b d l).2 ≤ |c.time - t|))) := by
  intro l
  induction l with
  | nil =>
      intro b d hd
      exact ⟨hd, Or.inl ⟨rfl, rfl, by simp⟩⟩
  | cons c rest ih =>
      intro b d hd
      by_cases h : |c.time - t| < d
      · simp only [nearestLoop, if_pos h]
        obtain ⟨hdist, hcase⟩ := ih c (|c.time - t|) rfl
        refine ⟨hdist, Or.inr ?_⟩
        rcases hcase with ⟨h1, h2, h3⟩ | ⟨l₁, l₂, hsplit, hlt, hstrict, hle⟩
        · exact ⟨[], rest, by rw [h1]; exact (List.nil_append _).symm,
            by rw [h2]; exact h, by simp, h3⟩
        · refine ⟨c :: l₁, l₂,
            by nth_rewrite 1 [hsplit]; exact (List.cons_append _ _ _).symm,
            lt_trans hlt h, ?_, hle⟩
          intro c' hc'
          rcases List.mem_cons.mp hc' with hc' | hc'
          · subst hc'; exact hlt
          · exact hstrict c' hc'
      · simp only [nearestLoop, if_neg h]
        push_neg at h
        obtain ⟨hdist, hcase⟩ := ih b d hd
        refine ⟨hdist, ?_⟩
        rcases hcase with ⟨h1, h2, h3⟩ | ⟨l₁, l₂, hsplit, hlt, hstrict, hle⟩
        · refine Or.inl ⟨h1, h2, ?_⟩
          intro c' hc'
          rcases List.mem_cons.mp hc' with hc' | hc'
          · subst hc'; rw [h2]; exact h
          · exact h3 c' hc'
        · refine Or.inr ⟨c :: l₁, l₂,
            by nth_rewrite 1 [hsplit]; exact (List.cons_append _ _ _).symm, hlt, ?_, hle⟩
          intro c' hc'
          rcases List.mem_cons.mp hc' with hc' | hc'
          · subst hc'; exact lt_of_lt_of_le hlt h
          · exact hstrict c' hc'

/-- Characterization of a successful `findNearestCheckpoint`: the returned
checkpoint occurs in the mesh, every strictly earlier entry is strictly
farther from the query time, every entry is at least as far, and the distance
is within the 0.3 s tolerance. -/
lemma findNearestCheckpoint_some_spec
    (cps : List ActionMeshCheckpoint) (t : ℚ) (c : ActionMeshCheckpoint)
    (h : findNearestCheckpoint cps t = some c) :
    (∃ l₁ l₂, cps = l₁ ++ c :: l₂ ∧ ∀ b ∈ l₁, |c.time - t| < |b.time - t|) ∧
    (∀ b ∈ cps, |c.time - t| ≤ |b.time - t|) ∧ |c.time - t| ≤ 3/10 := by
  match cps with
  | [] => simp [findNearestCheckpoint] at h
  | c0 :: rest =>
      simp only [findNearestCheckpoint] at h
      set r := nearestLoop t c0 (|c0.time - t|) (c0 :: rest) with hr
      by_cases htol : r.2 ≤ 3/10
      · rw [if_pos htol] at h
        injection h with h
        obtain ⟨hdist, hcase⟩ := nearestLoop_spec t (c0 :: rest) c0 (|c0.time - t|) rfl
        rw [← hr] at hdist hcase
        subst h
        rcases hcase with ⟨h1, h2, h3⟩ | ⟨l₁, l₂, hsplit, hlt, hstrict, hle⟩
        · refine ⟨⟨[], rest, by rw [h1]; exact (List.nil_append _).symm, by simp⟩,
            ?_, by rwa [hdist] at htol⟩
          intro b hb
          rw [← hdist]
          exact h3 b hb
        · refine ⟨⟨l₁, l₂, hsplit, fun b hb => by rw [← hdist]; exact hstrict b hb⟩,
            ?_, by rwa [hdist] at htol⟩
          intro b hb
          rw [hsplit] at hb
          rw [← hdist]
          rcases List.mem_append.mp hb with hb | hb
          · exact le_of_lt (hstrict b hb)
          · rcases List.mem_cons.mp hb with hb | hb
            · rw [hb]; exact le_of_eq hdist
            · exact hle b hb
      · rw [if_neg htol] at h
        exact absurd h (by simp)

/-- Failure side: when `findNearestCheckpoint` returns `none` on a non-empty
mesh, every checkpoint is strictly farther than the 0.3 s tolerance is not
guaranteed — but the minimum over the mesh exceeds the tolerance. -/
lemma findNearestCheckpoint_none_spec
    (cps : List ActionMeshCheckpoint) (t : ℚ)
    (hne : cps ≠ [])
    (h : findNearestCheckpoint cps t = none) :
    ∀ b ∈ cps, ¬(|b.time - t| ≤ 3/10) := by
  match cps with
  | [] => exact absurd rfl hne
  | c0 :: rest =>
      simp only [findNearestCheckpoint] at h
      set r := nearestLoop t c0 (|c0.time - t|) (c0 :: rest) with hr
      by_cases htol : r.2 ≤ 3/10
      · rw [if_pos htol] at h; exact absurd h (by simp)
      · obtain ⟨hdist, hcase⟩ := nearestLoop_spec t (c0 :: rest) c0 (|c0.time - t|) rfl
        rw [← hr] at hdist hcase
        intro b hb hble
        apply htol
        rcases hcase with ⟨h1, h2, h3⟩ | ⟨l₁, l₂, hsplit, hlt, hstrict, hle⟩
        · exact le_trans (h3 b hb) hble
        · rw [hsplit] at hb
          rcases List.mem_append.mp hb with hb | hb
          · exact le_trans (le_of_lt (hstrict b hb)) hble
          · rcases List.mem_cons.mp hb with hb | hb
            · rw [hdist, ← hb]; exact hble
            · exact le_trans (hle b hb) hble

lemma nearestLoop_min (t : ℚ) (c0 : ActionMeshCheckpoint)
    (rest : List ActionMeshCheckpoint) :
    ((nearestLoop t c0 (|c0.time - t|) (c0 :: rest)).2 =
      |(nearestLoop t c0 (|c0.time - t|) (c0 :: rest)).1.time - t|) ∧
    (nearestLoop t c0 (|c0.time - t|) (c0 :: rest)).1 ∈ c0 :: rest ∧
    ∀ b ∈ c0 :: rest,
      (nearestLoop t c0 (|c0.time - t|) (c0 :: rest)).2 ≤ |b.time - t| := by
  obtain ⟨hdist, hcase⟩ := nearestLoop_spec t (c0 :: rest) c0 (|c0.time - t|) rfl
  refine ⟨hdist, ?_, ?_⟩
  · rcases hcase with ⟨h1, _, _⟩ | ⟨l₁, l₂, hsplit, _, _, _⟩
    · rw [h1]; exact List.mem_cons_self _ _
    · have hm : (nearestLoop t c0 (|c0.time - t|) (c0 :: rest)).1 ∈
          l₁ ++ (nearestLoop t c0 (|c0.time - t|) (c0 :: rest)).1 :: l₂ :=
        List.mem_append.mpr (Or.inr (List.mem_cons_self _ _))
      rwa [← hsplit] at hm
  · intro b hb
    rcases hcase with ⟨_, _, h3⟩ | ⟨l₁, l₂, hsplit, _, hstrict, hle⟩
    · exact h3 b hb
    · rw [hsplit] at hb
      rcases List.mem_append.mp hb with hb | hb
      · exact le_of_lt (hstrict b hb)
      · rcases List.mem_cons.mp hb with hb | hb
        · rw [hb]; exact le_of_eq hdist
        · exact hle b hb

/-- C3: `findNearestCheckpoint` returns `none` on an empty mesh; on a
non-empty mesh it returns a checkpoint at minimal absolute time distance from
the query whenever that minimal distance is within the 0.3 s tolerance, and
`none` whenever every checkpoint (hence the minimum) is farther than 0.3 s. -/
theorem findNearestCheckpoint_locate (cps : List ActionMeshCheckpoint) (t : ℚ) :
    (cps = [] → findNearestCheckpoint cps t = none) ∧
    ((∃ c ∈ cps, |c.time - t| ≤ 3/10) →
      ∃ c ∈ cps, findNearestCheckpoint cps t = some c ∧
        ∀ b ∈ cps, |c.time - t| ≤ |b.time - t|) ∧
    ((∀ b ∈ cps, ¬(|b.time - t| ≤ 3/10)) → findNearestCheckpoint cps t = none) := by
  refine ⟨fun h => by rw [h]; rfl, ?_, ?_⟩
  · rintro ⟨c, hc, hcle⟩
    cases cps with
    | nil => exact absurd hc (List.not_mem_nil c)
    | cons c0 rest =>
        obtain ⟨hdist, hmem, hmin⟩ := nearestLoop_min t c0 rest
        have htol : (nearestLoop t c0 (|c0.time - t|) (c0 :: rest)).2 ≤ 3/10 :=
          le_trans (hmin c hc) hcle
        refine ⟨(nearestLoop t c0 (|c0.time - t|) (c0 :: rest)).1, hmem, ?_, ?_⟩
        · simp only [findNearestCheckpoint]
          rw [if_pos htol]
        · intro b hb
          rw [← hdist]
          exact hmin b hb
  · intro hall
    cases cps with
    | nil => rfl
    | cons c0 rest =>
        obtain ⟨hdist, hmem, hmin⟩ := nearestLoop_min t c0 rest
        simp only [findNearestCheckpoint]
        rw [if_neg]
        intro htol
        exact hall _ hmem (by rw [← hdist]; exact htol)

/-- Witness for C3 at a concrete mesh and query: the mesh `[{t=1}]` queried at
`t = 11/10` yields a minimal-distance checkpoint within tolerance. -/
theorem findNearestCheckpoint_locate_witness :
    ∃ c ∈ [ActionMeshCheckpoint.mk 1 []],
      findNearestCheckpoint [ActionMeshCheckpoint.mk 1 []] (11/10) = some c ∧
        ∀ b ∈ [ActionMeshCheckpoint.mk 1 []],
          |c.time - 11/10| ≤ |b.time - 11/10| :=
  (findNearestCheckpoint_locate [ActionMeshCheckpoint.mk 1 []] (11/10)).2.1
    ⟨⟨1, []⟩, by simp, by norm_num [abs_le]⟩

/-- C10: whenever `findNearestCheckpoint` returns a checkpoint, that
checkpoint occurs at a position in the mesh strictly before which every entry
is strictly farther from the query time: ties at the minimal distance are
broken in favour of the earliest entry, because a later checkpoint replaces
the running nearest only on a strictly smaller distance. -/
theorem findNearestCheckpoint_earliest_tie (cps : List ActionMeshCheckpoint)
    (t : ℚ) (c : ActionMeshCheckpoint)
    (h : findNearestCheckpoint cps t = some c) :
    ∃ l₁ l₂, cps = l₁ ++ c :: l₂ ∧
      (∀ b ∈ l₁, |c.time - t| < |b.time - t|) ∧
      (∀ b ∈ cps, |c.time - t| ≤ |b.time - t|) ∧ |c.time - t| ≤ 3/10 := by
  obtain ⟨⟨l₁, l₂, h1, h2⟩, h3, h4⟩ := findNearestCheckpoint_some_spec cps t c h
  exact ⟨l₁, l₂, h1, h2, h3, h4⟩

/-- Witness for C10: two checkpoints equidistant (1/10 each) from the query;
the first one is returned. -/
theorem findNearestCheckpoint_earliest_tie_witness :
    ∃ l₁ l₂,
      [ActionMeshCheckpoint.mk 1 [], ActionMeshCheckpoint.mk (6/5) []] =
        l₁ ++ ActionMeshCheckpoint.mk 1 [] :: l₂ ∧
      (∀ b ∈ l₁, |(ActionMeshCheckpoint.mk 1 []).time - 11/10| < |b.time - 11/10|) ∧
      (∀ b ∈ [ActionMeshCheckpoint.mk 1 [], ActionMeshCheckpoint.mk (6/5) []],
        |(ActionMeshCheckpoint.mk 1 []).time - 11/10| ≤ |b.time - 11/10|) ∧
      |(ActionMeshCheckpoint.mk 1 []).time - 11/10| ≤ 3/10 :=
  findNearestCheckpoint_earliest_tie _ (11/10) _
    (by norm_num [findNearestCheckpoint, nearestLoop, abs_eq_max_neg, max_def])

/-- The three-checkpoint mesh of the spec scenario (§8): times 0, 1, 2. -/
def demoMesh : List ActionMeshCheckpoint := [⟨0, []⟩, ⟨1, []⟩, ⟨2, []⟩]

/-- C4 counterexample: at the exact rational query time 1.7 the minimal
distance to the `t = 2` checkpoint is exactly 3/10, which the code's
`minDiff <= 0.3` test accepts, so the `t = 2` checkpoint is returned — not
`none` as the claim states. -/
theorem findNearestCheckpoint_scenario_counterexample :
    findNearestCheckpoint demoMesh (17/10) = some ⟨2, []⟩ ∧
    findNearestCheckpoint demoMesh (17/10) ≠ none := by
  have h1 : findNearestCheckpoint demoMesh (17/10) = some ⟨2, []⟩ := by
    norm_num [demoMesh, findNearestCheckpoint, nearestLoop, abs_eq_max_neg, max_def]
  exact ⟨h1, by rw [h1]; exact Option.some_ne_none _⟩

/-- C4 amended: querying the mesh `[0, 1, 2]` at 1.25 returns the `t = 1`
checkpoint (distance 1/4 ≤ 3/10); the exactly-at-threshold distance 3/10 is
accepted (`diff <= 0.3`), so the exact rational query 17/10 returns the
`t = 2` checkpoint; the IEEE-754 double nearest 1.7
(7656119366529843/2^52 < 17/10) has minimal distance strictly greater than
3/10 and yields `none`, which is the behaviour the spec scenario observes at
runtime. -/
theorem findNearestCheckpoint_scenario :
    findNearestCheckpoint demoMesh (5/4) = some ⟨1, []⟩ ∧
    findNearestCheckpoint demoMesh (17/10) = some ⟨2, []⟩ ∧
    findNearestCheckpoint demoMesh (7656119366529843/4503599627370496) = none := by
  norm_num [demoMesh, findNearestCheckpoint, nearestLoop, abs_eq_max_neg, max_def]

/-- C8: `getScoreFeedback` maps the documented score ranges to the documented
tiers, boundary scores land in the higher tier, and the awarded points are
monotone in the score. -/
theorem getScoreFeedback_tiers_monotone :
    (∀ s : ℚ,
      (95 ≤ s → getScoreFeedback s = ⟨"Perfect!", 100⟩) ∧
      (85 ≤ s ∧ s < 95 → getScoreFeedback s = ⟨"Great!", 60⟩) ∧
      (70 ≤ s ∧ s < 85 → getScoreFeedback s = ⟨"Good!", 30⟩) ∧
      (50 ≤ s ∧ s < 70 → getScoreFeedback s = ⟨"Almost!", 10⟩) ∧
      (s < 50 → getScoreFeedback s = ⟨"Keep trying!", 0⟩)) ∧
    (∀ s₁ s₂ : ℚ, s₂ ≤ s₁ →
      (getScoreFeedback s₂).points ≤ (getScoreFeedback s₁).points) := by
  constructor
  · intro s
    refine ⟨?_, ?_, ?_, ?_, ?_⟩
    · intro h
      rw [getScoreFeedback, if_pos h]
    · rintro ⟨h1, h2⟩
      rw [getScoreFeedback, if_neg (by linarith), if_pos h1]
    · rintro ⟨h1, h2⟩
      rw [getScoreFeedback, if_neg (by linarith), if_neg (by linarith), if_pos h1]
    · rintro ⟨h1, h2⟩
      rw [getScoreFeedback, if_neg (by linarith), if_neg (by linarith),
        if_neg (by linarith), if_pos h1]
    · intro h
      rw [getScoreFeedback, if_neg (by linarith), if_neg (by linarith),
        if_neg (by linarith), if_neg (by linarith)]
  · intro s₁ s₂ h
    rw [getScoreFeedback, getScoreFeedback]
    split_ifs <;> first | decide | (exfalso; linarith)

/-- A 3-component vector, as built inline by `calculatePoseSimilarity`. -/
structure Vec3 where
  x : ℚ
  y : ℚ
  z : ℚ
deriving DecidableEq, Repr

/-- `calculateAngle` of poseComparison.ts.  `sqrt` embeds `Math.sqrt`; `acosd`
embeds the composite `x ↦ Math.acos(x) * (180 / Math.PI)` applied after the
clamp of the cosine to [-1, 1]. -/
def calculateAngle (sqrt acosd : ℚ → ℚ) (v1 v2 : Vec3) : ℚ :=
  let dotProduct := v1.x * v2.x + v1.y * v2.y + v1.z * v2.z
  let mag1 := sqrt (v1.x * v1.x + v1.y * v1.y + v1.z * v1.z)
  let mag2 := sqrt (v2.x * v2.x + v2.y * v2.y + v2.z * v2.z)
  if mag1 = 0 ∨ mag2 = 0 then 0
  else acosd (max (-1) (min 1 (dotProduct / (mag1 * mag2))))

/-- One entry of the `anglePairs` table of `calculatePoseSimilarity`. -/
structure AnglePair where
  joint : ℕ
  parent1 : ℕ
  parent2 : ℕ
  label : String
  weight : ℚ
deriving DecidableEq, Repr

/-- The `anglePairs` table of `calculatePoseSimilarity`. -/
def anglePairs : List AnglePair :=
  [⟨13, 11, 15, "left elbow", 5/2⟩,
   ⟨11, 13, 23, "left shoulder", 2⟩,
   ⟨14, 12, 16, "right elbow", 5/2⟩,
   ⟨12, 14, 24, "right shoulder", 2⟩,
   ⟨25, 23, 27, "left knee", 5/2⟩,
   ⟨23, 25, 11, "left hip", 2⟩,
   ⟨26, 24, 28, "right knee", 5/2⟩,
   ⟨24, 26, 12, "right hip", 2⟩]

/-- JavaScript member access `landmarks[i].…`: out of bounds the element is
`undefined` and the member access throws, embedded as `.error ()`. -/
def getLm (landmarks : List Landmark) (i : ℕ) : Except Unit Landmark :=
  match landmarks.get? i with
  | some lm => .ok lm
  | none => .error ()

/-- The position loop of `calculatePoseSimilarity`, over the index-aligned
pairs of user and target landmarks (both in bounds, since the lengths were
checked equal).  Accumulates (totalDistance, totalDistanceWeight). -/
def positionLoop (sqrt : ℚ → ℚ) : List (Landmark × Landmark) → ℚ × ℚ → ℚ × ℚ
  | [], acc => acc
  | (user, target) :: rest, acc =>
      if user.visibility < 1/2 ∨ target.visibility < 1/2 then
        positionLoop sqrt rest acc
      else
        let distance := sqrt ((user.x - target.x)^2 + (user.y - target.y)^2 +
          (user.z - target.z)^2)
        positionLoop sqrt rest (acc.1 + distance, acc.2 + 1)

/-- One iteration of the angle loop of `calculatePoseSimilarity`.  The six
visibility reads happen in the short-circuit order of the `||` chain of the
source, each a member access that throws out of bounds. -/
def anglePairStep (sqrt acosd : ℚ → ℚ) (userLandmarks targetLandmarks : List Landmark)
    (p : AnglePair) (acc : ℚ × ℚ) : Except Unit (ℚ × ℚ) := do
  let uj ← getLm userLandmarks p.joint
  if uj.visibility < 1/2 then return acc
  let up1 ← getLm userLandmarks p.parent1
  if up1.visibility < 1/2 then return acc
  let up2 ← getLm userLandmarks p.parent2
  if up2.visibility < 1/2 then return acc
  let tj ← getLm targetLandmarks p.joint
  if tj.visibility < 1/2 then return acc
  let tp1 ← getLm targetLandmarks p.parent1
  if tp1.visibility < 1/2 then return acc
  let tp2 ← getLm targetLandmarks p.parent2
  if tp2.visibility < 1/2 then return acc
  let userVec1 : Vec3 := ⟨up1.x - uj.x, up1.y - uj.y, up1.z - uj.z⟩
  let userVec2 : Vec3 := ⟨up2.x - uj.x, up2.y - uj.y, up2.z - uj.z⟩
  let targetVec1 : Vec3 := ⟨tp1.x - tj.x, tp1.y - tj.y, tp1.z - tj.z⟩
  let targetVec2 : Vec3 := ⟨tp2.x - tj.x, tp2.y - tj.y, tp2.z - tj.z⟩
  let userAngle := calculateAngle sqrt acosd userVec1 userVec2
  let targetAngle := calculateAngle sqrt acosd targetVec1 targetVec2
  let angleDiff := |userAngle - targetAngle|
  return (acc.1 + angleDiff * p.weight, acc.2 + p.weight)

/-- The angle loop of `calculatePoseSimilarity` over the `anglePairs` table,
accumulating (totalAngleDiff, totalAngleWeight). -/
def angleLoop (sqrt acosd : ℚ → ℚ) (userLandmarks targetLandmarks : List Landmark) :
    List AnglePair → ℚ × ℚ → Except Unit (ℚ × ℚ)
  | [], acc => .ok acc
  | p :: rest, acc => do
      let acc' ← anglePairStep sqrt acosd userLandmarks targetLandmarks p acc
      angleLoop sqrt acosd userLandmarks targetLandmarks rest acc'

/-- `calculatePoseSimilarity` of poseComparison.ts.  `none` embeds a null
argument (empty arrays are truthy in JavaScript, so only null/undefined take
the early return). -/
def calculatePoseSimilarity (sqrt acosd : ℚ → ℚ)
    (userLandmarks targetLandmarks : Option (List Landmark)) : Except Unit ℚ :=
  match userLandmarks, targetLandmarks with
  | none, _ => .ok 0
  | some _, none => .ok 0
  | some u, some t =>
      if u.length ≠ t.length then .ok 0
      else
        let pos := positionLoop sqrt (u.zip t) (0, 0)
        let avgDistance := if pos.2 > 0 then pos.1 / pos.2 else 1
        let distanceSimilarity := max 0 (min 100 ((1 - avgDistance / (3/20)) * 100))
        do
          let ang ← angleLoop sqrt acosd u t anglePairs (0, 0)
          let avgAngleDiff := if ang.2 > 0 then ang.1 / ang.2 else 180
          let angleSimilarity := max 0 (min 100 ((1 - avgAngleDiff / 30) * 100))
          return angleSimilarity * (3/5) + distanceSimilarity * (2/5)

lemma ok_bind {α β : Type} (a : α) (f : α → Except Unit β) :
    (Except.ok a >>= f : Except Unit β) = f a := rfl

lemma pure_ok {α : Type} (a : α) : (pure a : Except Unit α) = Except.ok a := rfl

lemma getLm_of_lt (landmarks : List Landmark) (i : ℕ) (h : i < landmarks.length) :
    getLm landmarks i = .ok (landmarks.get ⟨i, h⟩) ∧ landmarks.get ⟨i, h⟩ ∈ landmarks :=
  ⟨by simp only [getLm, List.get?_eq_get h], landmarks.get_mem i h⟩

lemma positionLoop_self (sqrt : ℚ → ℚ) (hs : sqrt 0 = 0) :
    ∀ (x : List Landmark) (d w : ℚ), (∀ l ∈ x, l.visibility = 1) →
    positionLoop sqrt (x.zip x) (d, w) = (d, w + x.length) := by
  intro x
  induction x with
  | nil => intro d w _; simp [positionLoop]
  | cons l rest ih =>
      intro d w hvis
      have hl : l.visibility = 1 := hvis l (List.mem_cons_self _ _)
      have hrest : ∀ l' ∈ rest, l'.visibility = 1 :=
        fun l' h' => hvis l' (List.mem_cons_of_mem _ h')
      simp only [List.zip_cons_cons, positionLoop]
      rw [if_neg (by rw [hl]; norm_num)]
      rw [show (l.x - l.x)^2 + (l.y - l.y)^2 + (l.z - l.z)^2 = 0 by ring, hs]
      rw [show List.zipWith Prod.mk rest rest = rest.zip rest from rfl,
        ih (d + 0) (w + 1) hrest]
      simp only [Prod.mk.injEq, List.length_cons]
      push_cast
      constructor <;> ring

lemma anglePairStep_self (sqrt acosd : ℚ → ℚ) (x : List Landmark) (p : AnglePair)
    (hj : p.joint < x.length) (hp1 : p.parent1 < x.length) (hp2 : p.parent2 < x.length)
    (hvis : ∀ l ∈ x, l.visibility = 1) (acc : ℚ × ℚ) :
    anglePairStep sqrt acosd x x p acc = .ok (acc.1, acc.2 + p.weight) := by
  obtain ⟨hgj, hmj⟩ := getLm_of_lt x p.joint hj
  obtain ⟨hgp1, hmp1⟩ := getLm_of_lt x p.parent1 hp1
  obtain ⟨hgp2, hmp2⟩ := getLm_of_lt x p.parent2 hp2
  simp only [anglePairStep, hgj, hgp1, hgp2, ok_bind]
  simp only [hvis _ hmj, hvis _ hmp1, hvis _ hmp2]
  norm_num [pure_ok, ok_bind]

lemma angleLoop_self (sqrt acosd : ℚ → ℚ) (x : List Landmark)
    (hvis : ∀ l ∈ x, l.visibility = 1) :
    ∀ (pairs : List AnglePair) (acc : ℚ × ℚ),
    (∀ p ∈ pairs, p.joint < x.length ∧ p.parent1 < x.length ∧ p.parent2 < x.length) →
    angleLoop sqrt acosd x x pairs acc =
      .ok (acc.1, acc.2 + (pairs.map AnglePair.weight).sum) := by
  intro pairs
  induction pairs with
  | nil => intro acc _; simp [angleLoop]
  | cons p rest ih =>
      intro acc hb
      obtain ⟨hj, hp1, hp2⟩ := hb p (List.mem_cons_self _ _)
      simp only [angleLoop, anglePairStep_self sqrt acosd x p hj hp1 hp2 hvis acc,
        ok_bind]
      rw [ih _ (fun q hq => hb q (List.mem_cons_of_mem _ hq))]
      simp only [List.map_cons, List.sum_cons]
      rw [add_assoc]

lemma calculatePoseSimilarity_self_aux (sqrt acosd : ℚ → ℚ) (hs : sqrt 0 = 0)
    (x : List Landmark) (hlen : 29 ≤ x.length) (hvis : ∀ l ∈ x, l.visibility = 1) :
    calculatePoseSimilarity sqrt acosd (some x) (some x) = .ok 100 := by
  have hx0 : (0:ℚ) < x.length := by exact_mod_cast (by omega : 0 < x.length)
  have hbounds : ∀ p ∈ anglePairs,
      p.joint < x.length ∧ p.parent1 < x.length ∧ p.parent2 < x.length := by
    have h29 : ∀ p ∈ anglePairs, p.joint < 29 ∧ p.parent1 < 29 ∧ p.parent2 < 29 := by
      decide
    intro p hp
    obtain ⟨h1, h2, h3⟩ := h29 p hp
    exact ⟨lt_of_lt_of_le h1 hlen, lt_of_lt_of_le h2 hlen, lt_of_lt_of_le h3 hlen⟩
  have hsum : ((anglePairs.map AnglePair.weight).sum : ℚ) = 18 := by
    norm_num [anglePairs]
  simp only [calculatePoseSimilarity]
  rw [if_neg (by simp), positionLoop_self sqrt hs x 0 0 hvis,
    angleLoop_self sqrt acosd x hvis anglePairs (0, 0) hbounds, hsum, ok_bind]
  simp only
  rw [if_pos (by linarith : (0:ℚ) + ↑x.length > 0)]
  rw [if_pos (by norm_num : ((0:ℚ), (0:ℚ)).2 + 18 > 0)]
  rw [zero_div]
  norm_num [pure_ok]

/-- C1: for a full-body landmark set (the fixed 33-joint contract, covering
the indices 11–28 used by the angle pairs) with visibility 1 everywhere,
self-comparison scores exactly 100: the positional average distance is 0
(positional similarity 100), every angle difference is 0 (angular similarity
100), and the 0.6/0.4 weighted combination is 100. -/
theorem calculatePoseSimilarity_self (sqrt acosd : ℚ → ℚ) (hs : sqrt 0 = 0)
    (x : List Landmark) (hlen : x.length = 33)
    (hvis : ∀ l ∈ x, l.visibility = 1) :
    calculatePoseSimilarity sqrt acosd (some x) (some x) = .ok 100 :=
  calculatePoseSimilarity_self_aux sqrt acosd hs x (by omega) hvis

/-- A full-visibility 33-joint landmark set. -/
def lms33 : List Landmark := List.replicate 33 ⟨0, 0, 0, 1⟩

/-- Witness for C1 at a concrete full-body landmark set. -/
theorem calculatePoseSimilarity_self_witness :
    lms33.length = 33 ∧
    calculatePoseSimilarity (fun _ => 0) (fun _ => 0) (some lms33) (some lms33) =
      .ok 100 :=
  ⟨by simp [lms33],
   calculatePoseSimilarity_self (fun _ => 0) (fun _ => 0) rfl lms33 (by simp [lms33])
     (fun l hl => by rw [List.eq_of_mem_replicate hl])⟩

lemma positionLoop_skip (sqrt : ℚ → ℚ) :
    ∀ (ps : List (Landmark × Landmark)) (acc : ℚ × ℚ),
    (∀ pr ∈ ps, pr.1.visibility < 1/2 ∨ pr.2.visibility < 1/2) →
    positionLoop sqrt ps acc = acc := by
  intro ps
  induction ps with
  | nil => intro acc _; rfl
  | cons pr rest ih =>
      intro acc h
      obtain ⟨user, target⟩ := pr
      simp only [positionLoop]
      rw [if_pos (h (user, target) (List.mem_cons_self _ _))]
      exact ih acc (fun q hq => h q (List.mem_cons_of_mem _ hq))

lemma anglePairStep_skip (sqrt acosd : ℚ → ℚ) (u t : List Landmark) (p : AnglePair)
    (hju : p.joint < u.length) (hp1u : p.parent1 < u.length)
    (hp2u : p.parent2 < u.length) (hjt : p.joint < t.length)
    (hinv : (u.get ⟨p.joint, hju⟩).visibility < 1/2 ∨
      (t.get ⟨p.joint, hjt⟩).visibility < 1/2)
    (acc : ℚ × ℚ) :
    anglePairStep sqrt acosd u t p acc = .ok acc := by
  obtain ⟨hgj, _⟩ := getLm_of_lt u p.joint hju
  obtain ⟨hgp1, _⟩ := getLm_of_lt u p.parent1 hp1u
  obtain ⟨hgp2, _⟩ := getLm_of_lt u p.parent2 hp2u
  obtain ⟨hgjt, _⟩ := getLm_of_lt t p.joint hjt
  simp only [anglePairStep, hgj, hgp1, hgp2, hgjt, ok_bind]
  by_cases h1 : (u.get ⟨p.joint, hju⟩).visibility < 1/2
  · rw [if_pos h1]; rfl
  · rw [if_neg h1]
    have h2 : (t.get ⟨p.joint, hjt⟩).visibility < 1/2 := hinv.resolve_left h1
    by_cases h3 : (u.get ⟨p.parent1, hp1u⟩).visibility < 1/2
    · rw [if_pos h3]; rfl
    · rw [if_neg h3]
      by_cases h4 : (u.get ⟨p.parent2, hp2u⟩).visibility < 1/2
      · rw [if_pos h4]; rfl
      · rw [if_neg h4, if_pos h2]; rfl

lemma angleLoop_skip (sqrt acosd : ℚ → ℚ) (u t : List Landmark)
    (hlen : u.length = t.length)
    (hinv : ∀ (i : ℕ) (hiu : i < u.length) (hit : i < t.length),
      (u.get ⟨i, hiu⟩).visibility < 1/2 ∨ (t.get ⟨i, hit⟩).visibility < 1/2) :
    ∀ (pairs : List AnglePair) (acc : ℚ × ℚ),
    (∀ p ∈ pairs, p.joint < u.length ∧ p.parent1 < u.length ∧ p.parent2 < u.length) →
    angleLoop sqrt acosd u t pairs acc = .ok acc := by
  intro pairs
  induction pairs with
  | nil => intro acc _; rfl
  | cons p rest ih =>
      intro acc hb
      obtain ⟨hj, hp1, hp2⟩ := hb p (List.mem_cons_self _ _)
      have hjt : p.joint < t.length := hlen ▸ hj
      simp only [angleLoop,
        anglePairStep_skip sqrt acosd u t p hj hp1 hp2 hjt (hinv p.joint hj hjt) acc,
        ok_bind]
      exact ih acc (fun q hq => hb q (List.mem_cons_of_mem _ hq))

/-- C9: for equal-length full-body landmark sets in which, at every joint
index, at least one of the two landmarks is below the 0.5 visibility
threshold, the score is exactly 0: the positional term has no visible pairs
and defaults to average distance 1 (similarity 0), the angular term has no
computable angles and defaults to average difference 180° (similarity 0), and
the 0.6/0.4 weighted sum of the two worst cases is 0. -/
theorem calculatePoseSimilarity_all_invisible (sqrt acosd : ℚ → ℚ)
    (u t : List Landmark) (hlen : u.length = t.length) (hfull : u.length = 33)
    (hinv : ∀ (i : ℕ) (hiu : i < u.length) (hit : i < t.length),
      (u.get ⟨i, hiu⟩).visibility < 1/2 ∨ (t.get ⟨i, hit⟩).visibility < 1/2) :
    calculatePoseSimilarity sqrt acosd (some u) (some t) = .ok 0 := by
  have hbounds : ∀ p ∈ anglePairs,
      p.joint < u.length ∧ p.parent1 < u.length ∧ p.parent2 < u.length := by
    have h29 : ∀ p ∈ anglePairs, p.joint < 29 ∧ p.parent1 < 29 ∧ p.parent2 < 29 := by
      decide
    intro p hp
    obtain ⟨h1, h2, h3⟩ := h29 p hp
    exact ⟨by omega, by omega, by omega⟩
  have hzip : ∀ pr ∈ u.zip t, pr.1.visibility < 1/2 ∨ pr.2.visibility < 1/2 := by
    intro pr hpr
    obtain ⟨n, hn⟩ := List.mem_iff_get.mp hpr
    rw [← hn, List.get_zip]
    exact hinv n (List.lt_length_left_of_zip n.isLt)
      (List.lt_length_right_of_zip n.isLt)
  simp only [calculatePoseSimilarity]
  rw [if_neg (by omega), positionLoop_skip sqrt (u.zip t) (0, 0) hzip,
    angleLoop_skip sqrt acosd u t hlen hinv anglePairs (0, 0) hbounds, ok_bind]
  norm_num [pure_ok]

/-- An all-low-visibility 33-joint landmark set. -/
def lmsInvisible : List Landmark := List.replicate 33 ⟨0, 0, 0, 0⟩

/-- Witness for C9 at a concrete pair of all-invisible landmark sets. -/
theorem calculatePoseSimilarity_all_invisible_witness :
    calculatePoseSimilarity (fun q => q) (fun q => q)
      (some lmsInvisible) (some lmsInvisible) = .ok 0 :=
  calculatePoseSimilarity_all_invisible (fun q => q) (fun q => q)
    lmsInvisible lmsInvisible rfl (by simp [lmsInvisible])
    (fun i hiu hit => Or.inl (by
      rw [List.eq_of_mem_replicate (List.get_mem (l := lmsInvisible) i hiu)]
      norm_num))

lemma anglePairStep_total (sqrt acosd : ℚ → ℚ) (u t : List Landmark) (p : AnglePair)
    (acc : ℚ × ℚ)
    (hju : p.joint < u.length) (hp1u : p.parent1 < u.length)
    (hp2u : p.parent2 < u.length) (hjt : p.joint < t.length)
    (hp1t : p.parent1 < t.length) (hp2t : p.parent2 < t.length) :
    ∃ acc', anglePairStep sqrt acosd u t p acc = .ok acc' := by
  obtain ⟨hgju, _⟩ := getLm_of_lt u p.joint hju
  obtain ⟨hgp1u, _⟩ := getLm_of_lt u p.parent1 hp1u
  obtain ⟨hgp2u, _⟩ := getLm_of_lt u p.parent2 hp2u
  obtain ⟨hgjt, _⟩ := getLm_of_lt t p.joint hjt
  obtain ⟨hgp1t, _⟩ := getLm_of_lt t p.parent1 hp1t
  obtain ⟨hgp2t, _⟩ := getLm_of_lt t p.parent2 hp2t
  simp only [anglePairStep, hgju, hgp1u, hgp2u, hgjt, hgp1t, hgp2t, ok_bind]
  split_ifs <;> exact ⟨_, rfl⟩

lemma angleLoop_total (sqrt acosd : ℚ → ℚ) (u t : List Landmark)
    (hu : 29 ≤ u.length) (ht : 29 ≤ t.length) :
    ∀ (pairs : List AnglePair),
    (∀ p ∈ pairs, p.joint < 29 ∧ p.parent1 < 29 ∧ p.parent2 < 29) →
    ∀ acc, ∃ v, angleLoop sqrt acosd u t pairs acc = .ok v := by
  intro pairs
  induction pairs with
  | nil => intro _ acc; exact ⟨acc, rfl⟩
  | cons p rest ih =>
      intro hb acc
      obtain ⟨h1, h2, h3⟩ := hb p (List.mem_cons_self _ _)
      obtain ⟨acc', hstep⟩ := anglePairStep_total sqrt acosd u t p acc
        (by omega) (by omega) (by omega) (by omega) (by omega) (by omega)
      obtain ⟨v, hv⟩ := ih (fun q hq => hb q (List.mem_cons_of_mem _ hq)) acc'
      exact ⟨v, by simp only [angleLoop, hstep, ok_bind]; exact hv⟩

/-- C2 amended: a null argument or a length mismatch yields 0 without
throwing; and evaluation is total (no out-of-bounds member access) for
equal-length sets of at least 29 landmarks, the indices 11–28 read by the
angle pairs then being in bounds.  Totality does not extend to all shorter
equal-length sets: on two empty sets the angle loop's first visibility read is
out of bounds and evaluation throws (see the counterexample; whether a given
shorter pair throws depends on its length and visibilities, since an
early low-visibility read short-circuits the rest of the pair's reads). -/
theorem calculatePoseSimilarity_shape (sqrt acosd : ℚ → ℚ) :
    (∀ t, calculatePoseSimilarity sqrt acosd none t = .ok 0) ∧
    (∀ u, calculatePoseSimilarity sqrt acosd u none = .ok 0) ∧
    (∀ u t : List Landmark, u.length ≠ t.length →
      calculatePoseSimilarity sqrt acosd (some u) (some t) = .ok 0) ∧
    (∀ u t : List Landmark, u.length = t.length → 29 ≤ u.length →
      ∃ q, calculatePoseSimilarity sqrt acosd (some u) (some t) = .ok q) := by
  refine ⟨fun t => rfl, ?_, ?_, ?_⟩
  · intro u
    cases u with
    | none => rfl
    | some u => rfl
  · intro u t h
    simp only [calculatePoseSimilarity]
    rw [if_pos h]
  · intro u t hlen hu
    have hb : ∀ p ∈ anglePairs, p.joint < 29 ∧ p.parent1 < 29 ∧ p.parent2 < 29 := by
      decide
    obtain ⟨v, hv⟩ := angleLoop_total sqrt acosd u t hu (hlen ▸ hu) anglePairs hb (0, 0)
    simp only [calculatePoseSimilarity]
    rw [if_neg (by omega), hv, ok_bind]
    exact ⟨_, rfl⟩

/-- Witness for C2 at concrete inputs: a null argument, a length mismatch, and
a total evaluation on equal 33-landmark sets. -/
theorem calculatePoseSimilarity_shape_witness :
    calculatePoseSimilarity (fun q => q) (fun q => q) none (some lms33) = .ok 0 ∧
    calculatePoseSimilarity (fun q => q) (fun q => q) (some []) (some lms33) = .ok 0 ∧
    ∃ q, calculatePoseSimilarity (fun q => q) (fun q => q)
      (some lms33) (some lms33) = .ok q :=
  ⟨(calculatePoseSimilarity_shape (fun q => q) (fun q => q)).1 (some lms33),
   (calculatePoseSimilarity_shape (fun q => q) (fun q => q)).2.2.1 [] lms33
     (by simp [lms33]),
   (calculatePoseSimilarity_shape (fun q => q) (fun q => q)).2.2.2 lms33 lms33 rfl
     (by simp [lms33])⟩

/-- C2 counterexample: on two equal-length empty landmark arrays the angle
loop's very first member access `userLandmarks[13].visibility` hits an
out-of-bounds index (`undefined` in JavaScript) and evaluation throws,
instead of being total as the claim states. -/
theorem calculatePoseSimilarity_short_throws :
    calculatePoseSimilarity (fun q => q) (fun q => q) (some []) (some []) =
      .error () := rfl

/-- The scoring-relevant mutable state of `DanceCanvas`:
`lastScoredTimeRef`, `isRunning` and `isVideoPlaying`. -/
structure SessionState where
  lastScoredTime : ℚ
  isRunning : Bool
  isVideoPlaying : Bool
deriving DecidableEq, Repr

/-- The state at component mount: `lastScoredTimeRef = useRef<number>(0)`,
`isRunning = useRef<boolean>(false)`, `isVideoPlaying` initially false. -/
def initialSession : SessionState := ⟨0, false, false⟩

/-- The `onPlay` handler of the processed `<video>` element: sets the running
flags; `lastScoredTimeRef` is not touched. -/
def onPlay (s : SessionState) : SessionState :=
  { s with isRunning := true, isVideoPlaying := true }

/-- The `onPause` handler: clears the running flags and cancels the animation
frame; `lastScoredTimeRef` is not touched. -/
def onPause (s : SessionState) : SessionState :=
  { s with isRunning := false, isVideoPlaying := false }

/-- The `onEnded` handler: like `onPause` plus `onScoreReset()` (which resets
the displayed score owned by the parent, not `lastScoredTimeRef`). -/
def onEnded (s : SessionState) : SessionState :=
  { s with isRunning := false, isVideoPlaying := false }

/-- `resultsToLandmarks` of poseComparison.ts: null `poseLandmarks` yields
null, otherwise each landmark is copied field by field (the `visibility || 0`
default is already folded into the stored rational visibility). -/
def resultsToLandmarks (poseLandmarks : Option (List Landmark)) :
    Option (List Landmark) :=
  match poseLandmarks with
  | none => none
  | some lms => some (lms.map fun lm => ⟨lm.x, lm.y, lm.z, lm.visibility⟩)

lemma resultsToLandmarks_some (lms : List Landmark) :
    resultsToLandmarks (some lms) = some lms := by
  simp only [resultsToLandmarks]
  rw [show (fun lm : Landmark => Landmark.mk lm.x lm.y lm.z lm.visibility) = id
    from funext fun lm => rfl, List.map_id]

/-- The scoring section of the `onResults` callback of `DanceCanvas`
(lines 81–104): guarded by action mesh presence, a processed video URL and
detected pose landmarks; rejects when `currentTime - lastScoredTimeRef < 0.4`;
otherwise locates a checkpoint, scores, classifies, and on `points > 0` emits
`(points, feedback)` and sets `lastScoredTimeRef = currentTime`.  The result
pairs the new state with the emitted event, if any; the scorer's possible
throw propagates in `Except`. -/
def onResultsTick (sqrt acosd : ℚ → ℚ)
    (actionMesh : Option (List ActionMeshCheckpoint)) (hasProcessedVideo : Bool)
    (poseLandmarks : Option (List Landmark)) (currentTime : ℚ)
    (s : SessionState) : Except Unit (SessionState × Option (ℕ × String)) :=
  match actionMesh, hasProcessedVideo, poseLandmarks with
  | some mesh, true, some lms =>
      if currentTime - s.lastScoredTime < 2/5 then .ok (s, none)
      else
        match findNearestCheckpoint mesh currentTime with
        | some checkpoint =>
            match resultsToLandmarks (some lms) with
            | some userLandmarks => do
                let similarity ← calculatePoseSimilarity sqrt acosd
                  (some userLandmarks) (some checkpoint.landmarks)
                let fb := getScoreFeedback similarity
                if fb.points > 0 then
                  .ok ({ s with lastScoredTime := currentTime },
                    some (fb.points, fb.feedback))
                else .ok (s, none)
            | none => .ok (s, none)
        | none => .ok (s, none)
  | _, _, _ => .ok (s, none)

/-- C5 counterexample: at component mount `lastScoredTimeRef` holds 0, not a
-∞ sentinel, so the very first tick of a session at `currentTime = 1/5`
(with a checkpoint available at exactly that time and a perfectly matching
pose) is rejected by the `currentTime - lastScoredTime < 0.4` guard and emits
nothing. -/
theorem session_first_tick_rejected :
    initialSession.lastScoredTime = 0 ∧
    ((1/5 : ℚ) - initialSession.lastScoredTime < 2/5) ∧
    findNearestCheckpoint [⟨1/5, lms33⟩] (1/5) = some ⟨1/5, lms33⟩ ∧
    onResultsTick (fun q => q) (fun q => q) (some [⟨1/5, lms33⟩]) true
      (some lms33) (1/5) initialSession = .ok (initialSession, none) := by
  refine ⟨rfl, by norm_num [initialSession], ?_, ?_⟩
  · norm_num [findNearestCheckpoint, nearestLoop, abs_eq_max_neg, max_def]
  · simp only [onResultsTick]
    rw [if_pos (by norm_num [initialSession])]

/-- C5 amended: `lastScoredTime` is initialized to 0 at mount and is left
unchanged by the pause and ended transitions to Idle; consequently a tick
from the fresh state is rejected by the minimum-interval guard whenever
`currentTime < 0.4`, and the first checkpoint of a session is eligible only
from `currentTime ≥ 0.4` on. -/
theorem session_lastScoredTime_no_reset :
    initialSession.lastScoredTime = 0 ∧
    (∀ s, (onPause s).lastScoredTime = s.lastScoredTime) ∧
    (∀ s, (onEnded s).lastScoredTime = s.lastScoredTime) ∧
    (∀ s, (onPlay s).lastScoredTime = s.lastScoredTime) ∧
    (∀ (sqrt acosd : ℚ → ℚ) actionMesh hpv lms (ct : ℚ), ct < 2/5 →
      onResultsTick sqrt acosd actionMesh hpv lms ct initialSession =
        .ok (initialSession, none)) := by
  refine ⟨rfl, fun s => rfl, fun s => rfl, fun s => rfl, ?_⟩
  intro sqrt acosd actionMesh hpv lms ct hct
  rcases actionMesh with _ | mesh
  · rfl
  cases hpv
  · rfl
  rcases lms with _ | lms
  · rfl
  simp only [onResultsTick]
  have hguard : ct - initialSession.lastScoredTime < 2/5 := by
    rw [show initialSession.lastScoredTime = (0:ℚ) from rfl, sub_zero]
    exact hct
  rw [if_pos hguard]

/-- Witness for C5 (amended) at a concrete early tick. -/
theorem session_lastScoredTime_no_reset_witness :
    onResultsTick (fun q => q) (fun q => q) (some [⟨0, lms33⟩]) true (some lms33)
      (1/10) initialSession = .ok (initialSession, none) :=
  session_lastScoredTime_no_reset.2.2.2.2 (fun q => q) (fun q => q)
    (some [⟨0, lms33⟩]) true (some lms33) (1/10) (by norm_num)

/-- C6: any tick whose `currentTime` is within 0.4 s of `lastScoredTime` is
rejected before checkpoint lookup, scoring, emission or state mutation: the
result is the unchanged state with no event, for every mesh, pose and scoring
functions (in particular no scorer exception can occur, since the scorer is
never invoked). -/
theorem session_min_interval_guard (sqrt acosd : ℚ → ℚ)
    (actionMesh : Option (List ActionMeshCheckpoint)) (hpv : Bool)
    (lms : Option (List Landmark)) (ct : ℚ) (s : SessionState)
    (h : ct - s.lastScoredTime < 2/5) :
    onResultsTick sqrt acosd actionMesh hpv lms ct s = .ok (s, none) := by
  rcases actionMesh with _ | mesh
  · rfl
  cases hpv
  · rfl
  rcases lms with _ | lms
  · rfl
  simp only [onResultsTick]
  rw [if_pos h]

/-- Witness for C6: after a successful score at `currentTime = 1.00`, the tick
at `currentTime = 1.30` (interval 0.3 < 0.4) emits nothing and leaves the
state unchanged. -/
theorem session_min_interval_guard_witness :
    ((13/10 : ℚ) - (SessionState.mk 1 true true).lastScoredTime < 2/5) ∧
    onResultsTick (fun q => q) (fun q => q) (some [⟨1, lms33⟩]) true (some lms33)
      (13/10) ⟨1, true, true⟩ = .ok (⟨1, true, true⟩, none) :=
  ⟨by norm_num,
   session_min_interval_guard (fun q => q) (fun q => q) (some [⟨1, lms33⟩]) true
     (some lms33) (13/10) ⟨1, true, true⟩ (by norm_num)⟩

/-- C7: on a tick that passes the interval guard and finds a checkpoint, the
controller emits `(points, feedback)` and sets `lastScoredTime := currentTime`
exactly when the classified points are positive; a zero-point result emits
nothing and mutates no state field. -/
theorem session_emit_iff_points_pos (sqrt acosd : ℚ → ℚ)
    (mesh : List ActionMeshCheckpoint) (lms : List Landmark) (ct : ℚ)
    (s : SessionState) (cp : ActionMeshCheckpoint) (sim : ℚ)
    (hguard : ¬(ct - s.lastScoredTime < 2/5))
    (hcp : findNearestCheckpoint mesh ct = some cp)
    (hsim : calculatePoseSimilarity sqrt acosd (some lms) (some cp.landmarks) =
      .ok sim) :
    ((getScoreFeedback sim).points > 0 →
      onResultsTick sqrt acosd (some mesh) true (some lms) ct s =
        .ok ({ s with lastScoredTime := ct },
          some ((getScoreFeedback sim).points, (getScoreFeedback sim).feedback))) ∧
    ((getScoreFeedback sim).points = 0 →
      onResultsTick sqrt acosd (some mesh) true (some lms) ct s = .ok (s, none)) := by
  constructor
  · intro hp
    simp only [onResultsTick, if_neg hguard, hcp, resultsToLandmarks_some, hsim,
      ok_bind, if_pos hp]
  · intro hp
    have hnp : ¬((getScoreFeedback sim).points > 0) := by omega
    simp only [onResultsTick, if_neg hguard, hcp, resultsToLandmarks_some, hsim,
      ok_bind, if_neg hnp]

/-- Witness for C7: a perfect self-match at an eligible tick emits
`(100, Perfect)` and advances `lastScoredTime` to the tick's time. -/
theorem session_emit_iff_points_pos_witness :
    onResultsTick (fun _ => 0) (fun _ => 0) (some [⟨1, lms33⟩]) true (some lms33) 1
      initialSession =
      .ok ({ initialSession with lastScoredTime := 1 }, some (100, "Perfect!")) := by
  have hsim : calculatePoseSimilarity (fun _ => (0:ℚ)) (fun _ => (0:ℚ))
      (some lms33) (some (ActionMeshCheckpoint.mk 1 lms33).landmarks) = .ok 100 :=
    calculatePoseSimilarity_self_aux (fun _ => 0) (fun _ => 0) rfl lms33
      (by simp [lms33]) (fun l hl => by rw [List.eq_of_mem_replicate hl])
  have hcp : findNearestCheckpoint [⟨1, lms33⟩] 1 = some ⟨1, lms33⟩ := by
    norm_num [findNearestCheckpoint, nearestLoop, abs_eq_max_neg, max_def]
  have hfb : getScoreFeedback 100 = ⟨"Perfect!", 100⟩ := by
    rw [getScoreFeedback, if_pos (by norm_num : (95:ℚ) ≤ 100)]
  have h := session_emit_iff_points_pos (fun _ => 0) (fun _ => 0) [⟨1, lms33⟩]
    lms33 1 initialSession ⟨1, lms33⟩ 100
    (by norm_num [initialSession]) hcp hsim
  rw [h.1 (by rw [hfb]; norm_num), hfb]

/-- Witness for C8 at concrete scores: the boundary score 95 lands in the
Perfect tier, and points are monotone across 70 ≤ 95. -/
theorem getScoreFeedback_tiers_monotone_witness :
    getScoreFeedback 95 = ⟨"Perfect!", 100⟩ ∧
    (getScoreFeedback 70).points ≤ (getScoreFeedback 95).points :=
  ⟨(getScoreFeedback_tiers_monotone.1 95).1 (by norm_num),
   getScoreFeedback_tiers_monotone.2 95 70 (by norm_num)⟩
